import Mathlib

/-!
Verification development for the Fashion-Trend-Analyzer backend
(`fashion-backend/app.py`).  The single data-shaping routine
`load_and_process_data` and the `/api/trends` handler are embedded as
executable Lean definitions and their specified properties are settled below.

Modelling conventions:
* a parsed CSV table (`pandas.DataFrame`) is a list of column names plus a
  list of rows, each row a function from column name to `Option String`
  (`none` models a NaN / missing cell);
* `os.path.exists` is a boolean parameter, the result of `pd.read_csv` is an
  `Option DataFrame` (`none` models a raised parse exception);
* the successive values of `random.randint(-10, 25)` are an oracle
  `rand : Nat → Int` (the `i`-th loop iteration reads `rand i`);
* the float expression `int((cnt / max) * 100)` is modelled as IEEE-754
  binary64 arithmetic (numpy semantics): both counts converted to float64,
  one correctly-rounded division, one correctly-rounded multiplication by
  100, then truncation toward zero — all carried out exactly on dyadic
  rationals (see `roundF`), since e.g. counts 57 and 100 yield 56 in
  float64 where the exact floor would be 57;
* Python `set` iteration order is arbitrary; it is modelled as first-kept
  deduplication order, which is immaterial to every property proved here.
-/

namespace FashionApp

/-- Row of a parsed table: a function from column name to optional cell value
(`none` models a pandas NaN). -/
abbrev Row := String → Option String

/-- A parsed table (`pandas.DataFrame`): column names and rows. -/
structure DataFrame where
  cols : List String
  rows : List Row

/-- One output trend record: the dict appended to `trends_data` in
`load_and_process_data` (field names as in the source). -/
structure TrendRecord where
  id : Nat
  trendName : String
  category : String
  currentPopularity : Nat
  predictedPopularityChange : String
  keywords : List String
  imageUrl : String
  description : String
deriving DecidableEq, Repr

/-- Python `str.lower()` on one character (ASCII letters, as relevant to the
dataset's text). -/
def pyLowerChar (c : Char) : Char :=
  if 65 ≤ c.toNat ∧ c.toNat ≤ 90 then Char.ofNat (c.toNat + 32) else c

/-- Python `str.lower()`. -/
def pyLower (s : String) : String :=
  ⟨s.data.map pyLowerChar⟩

/-- Python `str.replace(' ', r)` for a one-character replacement. -/
def pyReplaceSpace (r : Char) (s : String) : String :=
  ⟨s.data.map (fun c => if c = ' ' then r else c)⟩

/-- Python `str.split()` with no argument: split on whitespace runs, dropping
empty pieces. -/
def pySplit (s : String) : List String :=
  ((s.data.splitOnP Char.isWhitespace).filter (fun w => !w.isEmpty)).map
    (fun w => ⟨w⟩)

/-- Python slice `s[:n]`: the first `n` characters. -/
def pyTake (n : Nat) (s : String) : String :=
  ⟨s.data.take n⟩

/-- Python `str.startswith("http")`. -/
def startsWithHttp (s : String) : Bool :=
  s.data.take 4 == "http".data

/-- Python `f"+{n}" if n >= 0 else str(n)` (the predicted-change formatting in
the source). -/
def formatChange (n : Int) : String :=
  if 0 ≤ n then "+" ++ Int.repr n else Int.repr n

/-- Checks the regular expression `^[+-][0-9]+$`. -/
def signedIntPattern (s : String) : Bool :=
  match s.data with
  | c :: rest => (c == '+' || c == '-') && !rest.isEmpty && rest.all Char.isDigit
  | [] => false

/-- Numeric value of the digit characters after the sign. -/
def unsignedValue (s : String) : Nat :=
  (s.data.drop 1).foldl (fun a c => 10 * a + (c.toNat - 48)) 0

/-- The character is not an ASCII uppercase letter. -/
def notUpper (c : Char) : Prop :=
  ¬(65 ≤ c.toNat ∧ c.toNat ≤ 90)

/-- The string contains no ASCII uppercase letter (it is "lowercase" in the
sense of Python `str.lower()` output). -/
def strLower (s : String) : Prop :=
  ∀ c ∈ s.data, notUpper c

instance (c : Char) : Decidable (notUpper c) := by
  unfold notUpper
  infer_instance

instance (s : String) : Decidable (strLower s) := by
  unfold strLower
  infer_instance

/-- Column `c` of the table viewed as a pandas Series (list of optional
cells), i.e. `df[c]`. -/
def DataFrame.col (df : DataFrame) (c : String) : List (Option String) :=
  df.rows.map (fun r => r c)

/-- pandas `Series.dropna()`: the non-null values in order. -/
def dropna (xs : List (Option String)) : List String :=
  xs.filterMap id

/-- The fixed priority list of category-like column names; the first entry is
the string `"Type "` with a trailing space, exactly as in the source. -/
def categoryPriority : List String :=
  ["Type ", "Subtype", "Category", "category", "ProductCategory", "product_category"]

/-- The loop `for col in [...]: if col in df.columns: category_col = col; break`. -/
def findCategoryCol (cols : List String) : Option String :=
  categoryPriority.find? (fun c => cols.contains c)

/-- Ordering used by `Series.value_counts()`: descending count. -/
def countGE (a b : String × Nat) : Prop :=
  b.2 ≤ a.2

instance : DecidableRel countGE :=
  fun a b => inferInstanceAs (Decidable (b.2 ≤ a.2))

instance : IsTotal (String × Nat) countGE :=
  ⟨fun a b => Nat.le_total b.2 a.2⟩

instance : IsTrans (String × Nat) countGE :=
  ⟨fun _ _ _ h1 h2 => Nat.le_trans h2 h1⟩

/-- pandas `Series.value_counts()`: the distinct non-null values paired with
their multiplicities, in descending count order. -/
def valueCounts (xs : List (Option String)) : List (String × Nat) :=
  List.insertionSort countGE
    ((dropna xs).dedup.map (fun v => (v, (dropna xs).count v)))

/-- Test `c in group.columns and not group[c].isnull().all()`. -/
def colUsable (cols : List String) (rows : List Row) (c : String) : Bool :=
  cols.contains c && !(dropna (rows.map (fun r => r c))).isEmpty

/-- Value of `group[c].dropna().iloc[0]` (`none` when every cell is null). -/
def firstNonNull (rows : List Row) (c : String) : Option String :=
  (dropna (rows.map (fun r => r c))).head?

/-- The sample text for a group: the first non-null `description` value if the
column is usable, else the first non-null `title` value if that column is
usable, else nothing (mirrors the repeated if/elif chain in the source). -/
def sampleText (cols : List String) (rows : List Row) : Option String :=
  if colUsable cols rows "description" then firstNonNull rows "description"
  else if colUsable cols rows "title" then firstNonNull rows "title"
  else none

/-- Python `list(set([w.lower() for w in t.split() if len(w) > 3]))[:5]`. -/
def keywordsFromText (t : String) : List String :=
  ((((pySplit t).filter (fun w => 3 < w.length)).map pyLower).dedup).take 5

/-- Keywords for one group: words from the sample text, else the category name
lowercased with spaces replaced by hyphens. -/
def keywordsFor (cols : List String) (rows : List Row) (cat : String) : List String :=
  match sampleText cols rows with
  | some t => keywordsFromText t
  | none => [pyReplaceSpace '-' (pyLower cat)]

/-- The generated sentence used when no sample text exists:
`f"Trends in the '{category}' category, derived from Kaggle data."`. -/
def genericDescription (cat : String) : String :=
  "Trends in the \x27" ++ cat ++ "\x27 category, derived from Kaggle data."

/-- Description for one group: first 150 characters of the sample text with
`"..."` appended, else the generated sentence naming the category. -/
def descriptionFor (cols : List String) (rows : List Row) (cat : String) : String :=
  match sampleText cols rows with
  | some t => pyTake 150 t ++ "..."
  | none => genericDescription cat

/-- The generated placeholder image URL for a category. -/
def placeholderUrl (cat : String) : String :=
  "https://placehold.co/300x200/F0F0F0/333333?text=" ++ pyReplaceSpace '+' cat

/-- Image URL for one group: the first non-null `image_url` value when that
value starts with "http", else the placeholder. -/
def imageUrlFor (cols : List String) (rows : List Row) (cat : String) : String :=
  match (if colUsable cols rows "image_url" then firstNonNull rows "image_url" else none) with
  | some u => if startsWithHttp u then u else placeholderUrl cat
  | none => placeholderUrl cat

/-- The rows of one category group: `df[df[category_col] == category]`
(a NaN cell never equals the category, as in pandas). -/
def groupRows (df : DataFrame) (catCol cat : String) : List Row :=
  df.rows.filter (fun r => r catCol == some cat)

/-- Round-to-nearest, ties-to-even, of the rational a / b to an integer
(b ≠ 0). -/
def rneInt (a b : Nat) : Nat :=
  if 2 * (a % b) < b then a / b
  else if b < 2 * (a % b) then a / b + 1
  else if (a / b) % 2 = 0 then a / b else a / b + 1

/-- Largest e with b * 2^e ≤ a, for 1 ≤ b ≤ a (fuel-bounded structural
recursion; any fuel ≥ log2 a + 1 suffices and callers pass a + b). -/
def floorLog2Up : Nat → Nat → Nat → Nat
  | 0, _, _ => 0
  | fuel + 1, a, b => if 2 * b ≤ a then floorLog2Up fuel a (2 * b) + 1 else 0

/-- Least k with b ≤ a * 2^k, for 1 ≤ a < b (fuel-bounded structural
recursion; any fuel ≥ log2 b + 1 suffices and callers pass a + b). -/
def normShiftUp : Nat → Nat → Nat → Nat
  | 0, _, _ => 0
  | fuel + 1, a, b => if b ≤ a then 0 else normShiftUp fuel (2 * a) b + 1

/-- IEEE-754 binary64 rounding (round to nearest, ties to even, 53-bit
significand) of the nonnegative rational a / b, returned as a dyadic pair
(p, k) whose exact value is p / 2^k.  With b ≤ a the exponent e =
floor(log2(a/b)) ≥ 0 and the significand is the RNE integer rounding of
(a/b)·2^(52-e) ∈ [2^52, 2^53]; with a < b the exponent is -k < 0 and the
significand is the RNE rounding of (a/b)·2^(52+k).  Every double this
program produces lies in the normal range (quotients of int64 counts are in
[2^-63, 1] and products in (0, 100]), so no subnormal or overflow handling
is required. -/
def roundF (a b : Nat) : Nat × Nat :=
  if a = 0 ∨ b = 0 then (0, 0)
  else if b ≤ a then
    (rneInt (a * 2 ^ 52) (b * 2 ^ floorLog2Up (a + b) a b) *
      2 ^ floorLog2Up (a + b) a b, 52)
  else
    (rneInt (a * 2 ^ (52 + normShiftUp (a + b) a b)) b,
      52 + normShiftUp (a + b) a b)

/-- numpy int64 → float64 conversion (exact below 2^53, rounded above). -/
def natToF (n : Nat) : Nat × Nat := roundF n 1

/-- IEEE-754 float64 division of two nonnegative doubles (dyadic pairs). -/
def fdivF (x y : Nat × Nat) : Nat × Nat := roundF (x.1 * 2 ^ y.2) (y.1 * 2 ^ x.2)

/-- IEEE-754 float64 multiplication of a nonnegative double by the exactly
representable constant 100. -/
def fmulHundred (x : Nat × Nat) : Nat × Nat := roundF (100 * x.1) (2 ^ x.2)

/-- Python `int()` truncation toward zero (= floor on nonnegative doubles). -/
def truncF (x : Nat × Nat) : Nat := x.1 / 2 ^ x.2

/-- Value of `int((cnt / maxCount) * 100)` exactly as the program computes it
in numpy/CPython float64 arithmetic: both int64 counts are converted to
float64, divided, the quotient multiplied by 100, and the product truncated
toward zero.  This differs from the exact rational floor: e.g. cnt = 57,
maxCount = 100 gives 56, not 57, because (57/100)*100 rounds to
56.99999999999999 in float64. -/
def pyPopularityRaw (cnt maxCount : Nat) : Nat :=
  truncF (fmulHundred (fdivF (natToF cnt) (natToF maxCount)))

/-- Value of `min(max(int((cnt / maxCount) * 100), 30), 95)`. -/
def popularity (cnt maxCount : Nat) : Nat :=
  min (max (pyPopularityRaw cnt maxCount) 30) 95

/-- One loop iteration: the record appended for the `i`-th category (0-based),
whose random draw is `r`. -/
def mkTrendRecord (df : DataFrame) (catCol : String) (maxCount : Nat) (r : Int)
    (i : Nat) (cat : String) (cnt : Nat) : TrendRecord :=
  let rows := groupRows df catCol cat
  { id := i + 1
    trendName := cat
    category := cat
    currentPopularity := popularity cnt maxCount
    predictedPopularityChange := formatChange r
    keywords := keywordsFor df.cols rows cat
    imageUrl := imageUrlFor df.cols rows cat
    description := descriptionFor df.cols rows cat }

/-- The loop `for i, category in enumerate(unique_categories)`. -/
def buildRecords (df : DataFrame) (catCol : String) (maxCount : Nat)
    (rand : Nat → Int) : Nat → List (String × Nat) → List TrendRecord
  | _, [] => []
  | i, (cat, cnt) :: rest =>
    mkTrendRecord df catCol maxCount (rand i) i cat cnt ::
      buildRecords df catCol maxCount rand (i + 1) rest

/-- Successful processing once a category column has been selected:
`max_count = category_counts.max()` and the enumeration loop. -/
def processGroups (df : DataFrame) (catCol : String) (rand : Nat → Int) :
    List TrendRecord :=
  buildRecords df catCol
    (((valueCounts (df.col catCol)).map Prod.snd).foldr Nat.max 0) rand 0
    (valueCounts (df.col catCol))

/-- First hard-coded fallback record of the missing-file path. -/
def fbOversized : TrendRecord :=
  { id := 1, trendName := "Fallback: Oversized Blazers", category := "Outerwear"
    currentPopularity := 85, predictedPopularityChange := "+10"
    keywords := ["blazer", "oversized", "formal", "casual", "chic"]
    imageUrl := "https://placehold.co/300x200/F0F0F0/333333?text=Fallback+Data"
    description := "Using fallback data. Please ensure Kaggle dataset is downloaded." }

/-- Second hard-coded fallback record of the missing-file path. -/
def fbCargo : TrendRecord :=
  { id := 2, trendName := "Fallback: Cargo Pants", category := "Bottoms"
    currentPopularity := 78, predictedPopularityChange := "+15"
    keywords := ["cargo", "pants", "utility", "streetwear", "comfort"]
    imageUrl := "https://placehold.co/300x200/F0F0F0/333333?text=Fallback+Data"
    description := "Using fallback data. Please ensure Kaggle dataset is downloaded." }

/-- The fixed 2-element list returned when the dataset file does not exist. -/
def fallbackMissingFile : List TrendRecord :=
  [fbOversized, fbCargo]

/-- The fixed record returned when loading or processing raises an exception. -/
def fbProcessingError : TrendRecord :=
  { id := 1, trendName := "Fallback: Processing Error", category := "Error"
    currentPopularity := 50, predictedPopularityChange := "+0"
    keywords := ["error", "processing", "check-console"]
    imageUrl := "https://placehold.co/300x200/CCCCCC/666666?text=Processing+Error"
    description := "An error occurred during data processing. See backend console." }

/-- The fixed 1-element list of the parse-failure path. -/
def fallbackProcessingError : List TrendRecord :=
  [fbProcessingError]

/-- The fixed record returned when no suitable category column is available. -/
def fbDataIssue : TrendRecord :=
  { id := 1, trendName := "Fallback: Data Issue", category := "Unknown"
    currentPopularity := 50, predictedPopularityChange := "+0"
    keywords := ["data", "error", "check-console"]
    imageUrl := "https://placehold.co/300x200/CCCCCC/666666?text=Data+Error"
    description := "Could not process Kaggle data. Check backend console for column issues." }

/-- The fixed 1-element list of the missing-or-empty-category-column path. -/
def fallbackDataIssue : List TrendRecord :=
  [fbDataIssue]

/-- Embedding of `load_and_process_data()`.  `fileExists` models
`os.path.exists(DATASET_FILE)`; `parsed` models the outcome of
`pd.read_csv` (`none` = exception); `rand` models the successive
`random.randint(-10, 25)` draws.  The source's
`if category_col and not df[category_col].empty` guard becomes the
`findCategoryCol` match plus the `isEmpty` test (a pandas Series is empty
exactly when it has zero rows); when every cell of the selected column is
null the loop body never runs and the final
`return trends_data if trends_data else []` yields `[]`. -/
def load_and_process_data (fileExists : Bool) (parsed : Option DataFrame)
    (rand : Nat → Int) : List TrendRecord :=
  if fileExists = false then fallbackMissingFile
  else
    match parsed with
    | none => fallbackProcessingError
    | some df =>
      match findCategoryCol df.cols with
      | none => fallbackDataIssue
      | some catCol =>
        if (df.col catCol).isEmpty then fallbackDataIssue
        else processGroups df catCol rand

/-- The `GET /api/trends` handler: serves the list precomputed at startup,
unchanged. -/
def get_trends (fileExists : Bool) (parsed : Option DataFrame)
    (rand : Nat → Int) : List TrendRecord :=
  load_and_process_data fileExists parsed rand

/-- Rounding `a / b` to the nearest integer (half rounds up); used only to
state what the specification's `round(...)` would produce. -/
def roundNearest (a b : Nat) : Nat :=
  (2 * a + b) / (2 * b)

/-- A row holding only a `Category` cell. -/
def rowCat (v : String) : Row :=
  fun c => if c = "Category" then some v else none

/-- A row with a `Category` cell and an optional `description` cell. -/
def rowCD (cat : String) (d : Option String) : Row :=
  fun c => if c = "Category" then some cat else if c = "description" then d else none

/-- A row with a `Category` cell and an optional `image_url` cell. -/
def rowCI (cat : String) (u : Option String) : Row :=
  fun c => if c = "Category" then some cat else if c = "image_url" then u else none

/-- A row with every cell null. -/
def rowNone : Row :=
  fun _ => none

/-- Table with groups of sizes 2 and 3 (categories `A`, `B`). -/
def dfCounts : DataFrame :=
  ⟨["Category"], [rowCat "A", rowCat "A", rowCat "B", rowCat "B", rowCat "B"]⟩

/-- Table with a single one-row category group and no text columns. -/
def dfA : DataFrame :=
  ⟨["Category"], [rowCat "A"]⟩

/-- Table whose only row has a null category cell. -/
def dfAllNull : DataFrame :=
  ⟨["Category"], [rowNone]⟩

/-- Table with no recognized category column at all. -/
def dfNoCat : DataFrame :=
  ⟨["colour"], [fun c => if c = "colour" then some "red" else none]⟩

/-- Table whose column is named `Type` without the trailing space. -/
def dfTypeNoSpace : DataFrame :=
  ⟨["Type"], [fun c => if c = "Type" then some "A" else none]⟩

/-- Table whose only description cell is the empty string. -/
def dfEmptyDesc : DataFrame :=
  ⟨["Category", "description"], [rowCD "A" (some "")]⟩

/-- Table with a short description value. -/
def dfShortDesc : DataFrame :=
  ⟨["Category", "description"], [rowCD "A" (some "Nice")]⟩

/-- Table whose group has a non-http first image value followed by an http
one. -/
def dfImg : DataFrame :=
  ⟨["Category", "image_url"], [rowCI "A" (some "ftp://x"), rowCI "A" (some "http://y")]⟩

/-- The single record produced for `dfA` (used by concrete witnesses). -/
def recA : TrendRecord :=
  { id := 1, trendName := "A", category := "A"
    currentPopularity := 95, predictedPopularityChange := "+0"
    keywords := ["a"]
    imageUrl := "https://placehold.co/300x200/F0F0F0/333333?text=A"
    description := genericDescription "A" }

/-- The single record produced for `dfShortDesc` (used by concrete
witnesses). -/
def recShortDesc : TrendRecord :=
  { id := 1, trendName := "A", category := "A"
    currentPopularity := 95, predictedPopularityChange := "+0"
    keywords := ["nice"]
    imageUrl := "https://placehold.co/300x200/F0F0F0/333333?text=A"
    description := "Nice..." }

/-- The single record produced for `dfImg` (used by concrete witnesses). -/
def recImg : TrendRecord :=
  { id := 1, trendName := "A", category := "A"
    currentPopularity := 95, predictedPopularityChange := "+0"
    keywords := ["a"]
    imageUrl := "https://placehold.co/300x200/F0F0F0/333333?text=A"
    description := genericDescription "A" }

end FashionApp

namespace FashionApp

/-- Conversion of a valid code point back to a natural number. -/
theorem toNat_ofNat_valid (n : Nat) (h : n.isValidChar) : (Char.ofNat n).toNat = n := by
  rw [Char.ofNat, dif_pos h]
  rfl

/-- Lowercasing a character never yields an ASCII uppercase letter. -/
theorem pyLowerChar_notUpper (c : Char) : notUpper (pyLowerChar c) := by
  unfold pyLowerChar notUpper
  split
  · next h =>
    have hv : (c.toNat + 32).isValidChar := Or.inl (by omega)
    rw [toNat_ofNat_valid _ hv]
    omega
  · next h => exact h

/-- Lowercasing a string yields a string with no ASCII uppercase letter. -/
theorem strLower_pyLower (s : String) : strLower (pyLower s) := by
  intro c hc
  simp only [pyLower] at hc
  obtain ⟨a, _, rfl⟩ := List.mem_map.mp hc
  exact pyLowerChar_notUpper a

/-- Replacing spaces by a lowercase-safe character preserves `strLower`. -/
theorem strLower_pyReplaceSpace (r : Char) (hr : notUpper r) (s : String)
    (hs : strLower s) : strLower (pyReplaceSpace r s) := by
  intro c hc
  simp only [pyReplaceSpace] at hc
  obtain ⟨a, ha, rfl⟩ := List.mem_map.mp hc
  split
  · exact hr
  · exact hs a ha

/-- Decomposition of membership in the enumeration loop's output. -/
theorem mem_buildRecords {df : DataFrame} {catCol : String} {maxCount : Nat}
    {rand : Nat → Int} {r : TrendRecord} :
    ∀ {i : Nat} {l : List (String × Nat)},
      r ∈ buildRecords df catCol maxCount rand i l →
      ∃ j cat cnt, (cat, cnt) ∈ l ∧
        r = mkTrendRecord df catCol maxCount (rand j) j cat cnt := by
  intro i l
  induction l generalizing i with
  | nil => intro h; simp [buildRecords] at h
  | cons p rest ih =>
    obtain ⟨cat, cnt⟩ := p
    intro h
    rw [buildRecords] at h
    rcases List.mem_cons.mp h with h | h
    · exact ⟨i, cat, cnt, List.mem_cons_self _ _, h⟩
    · obtain ⟨j, cat2, cnt2, hm, he⟩ := ih h
      exact ⟨j, cat2, cnt2, List.mem_cons_of_mem _ hm, he⟩

/-- Decomposition of membership in the successful-processing output. -/
theorem mem_processGroups {df : DataFrame} {catCol : String} {rand : Nat → Int}
    {r : TrendRecord} (h : r ∈ processGroups df catCol rand) :
    ∃ j cat cnt, (cat, cnt) ∈ valueCounts (df.col catCol) ∧
      r = mkTrendRecord df catCol
            (((valueCounts (df.col catCol)).map Prod.snd).foldr Nat.max 0)
            (rand j) j cat cnt := by
  unfold processGroups at h
  exact mem_buildRecords h

/-- Path analysis of `load_and_process_data`. -/
theorem mem_load_cases {fe : Bool} {p : Option DataFrame} {rand : Nat → Int}
    {r : TrendRecord} (h : r ∈ load_and_process_data fe p rand) :
    r ∈ fallbackMissingFile ∨ r ∈ fallbackProcessingError ∨ r ∈ fallbackDataIssue ∨
      ∃ df catCol, fe = true ∧ p = some df ∧ findCategoryCol df.cols = some catCol ∧
        (df.col catCol).isEmpty = false ∧ r ∈ processGroups df catCol rand := by
  unfold load_and_process_data at h
  cases fe with
  | false => simp only [reduceIte] at h; exact Or.inl h
  | true =>
    simp only [Bool.true_eq_false, reduceIte] at h
    cases p with
    | none => exact Or.inr (Or.inl h)
    | some df =>
      dsimp only at h
      cases hcat : findCategoryCol df.cols with
      | none => rw [hcat] at h; exact Or.inr (Or.inr (Or.inl h))
      | some catCol =>
        rw [hcat] at h
        dsimp only at h
        by_cases he : (df.col catCol).isEmpty = true
        · rw [if_pos he] at h
          exact Or.inr (Or.inr (Or.inl h))
        · rw [if_neg he] at h
          exact Or.inr (Or.inr (Or.inr
            ⟨df, catCol, rfl, rfl, hcat, Bool.not_eq_true _ ▸ he, h⟩))

/-- Counting after `dropna` is counting the corresponding `some` cells. -/
theorem count_filterMap_id (cat : String) (l : List (Option String)) :
    (l.filterMap id).count cat = l.countP (fun o => o == some cat) := by
  induction l with
  | nil => rfl
  | cons o l ih =>
    cases o with
    | none =>
      simp only [List.filterMap_cons_none, List.countP_cons]
      simpa using ih
    | some v =>
      by_cases hv : v = cat
      · subst hv
        simp [List.count_cons, List.countP_cons, ih]
      · simp [List.count_cons, List.countP_cons, ih, hv, Ne.symm hv]

/-- The size of a category group is the multiplicity of its value in the
selected column. -/
theorem groupRows_length (df : DataFrame) (catCol cat : String) :
    (groupRows df catCol cat).length = (dropna (df.col catCol)).count cat := by
  unfold groupRows dropna DataFrame.col
  rw [count_filterMap_id, ← List.countP_eq_length_filter, List.countP_map]
  rfl

/-- Every count recorded by `valueCounts` is the value's multiplicity. -/
theorem mem_valueCounts {xs : List (Option String)} {cat : String} {cnt : Nat}
    (h : (cat, cnt) ∈ valueCounts xs) : cnt = (dropna xs).count cat := by
  unfold valueCounts at h
  rw [List.mem_insertionSort] at h
  obtain ⟨v, _, he⟩ := List.mem_map.mp h
  cases he
  rfl

/-- The clamped popularity always lies in the interval. -/
theorem popularity_range (cnt maxCount : Nat) :
    30 ≤ popularity cnt maxCount ∧ popularity cnt maxCount ≤ 95 :=
  ⟨le_min (le_max_right _ _) (by norm_num), min_le_right _ _⟩

/-- Unfolding of the successful processing path. -/
theorem load_success (df : DataFrame) (catCol : String) (rand : Nat → Int)
    (hcat : findCategoryCol df.cols = some catCol)
    (hne : (df.col catCol).isEmpty = false) :
    load_and_process_data true (some df) rand = processGroups df catCol rand := by
  have e : load_and_process_data true (some df) rand =
      (match findCategoryCol df.cols with
       | none => fallbackDataIssue
       | some c =>
         if (df.col c).isEmpty then fallbackDataIssue
         else processGroups df c rand) := rfl
  rw [e, hcat]
  simp [hne]

/-- Unfolding of the no-category-column path. -/
theorem load_no_column (df : DataFrame) (rand : Nat → Int)
    (hnone : findCategoryCol df.cols = none) :
    load_and_process_data true (some df) rand = fallbackDataIssue := by
  have e : load_and_process_data true (some df) rand =
      (match findCategoryCol df.cols with
       | none => fallbackDataIssue
       | some c =>
         if (df.col c).isEmpty then fallbackDataIssue
         else processGroups df c rand) := rfl
  rw [e, hnone]

/-- Field values of one constructed record (id). -/
theorem mkTrendRecord_id (df : DataFrame) (catCol : String) (maxCount : Nat)
    (r : Int) (i : Nat) (cat : String) (cnt : Nat) :
    (mkTrendRecord df catCol maxCount r i cat cnt).id = i + 1 := rfl

/-- Field values of one constructed record (category). -/
theorem mkTrendRecord_category (df : DataFrame) (catCol : String) (maxCount : Nat)
    (r : Int) (i : Nat) (cat : String) (cnt : Nat) :
    (mkTrendRecord df catCol maxCount r i cat cnt).category = cat := rfl

/-- Field values of one constructed record (popularity). -/
theorem mkTrendRecord_currentPopularity (df : DataFrame) (catCol : String)
    (maxCount : Nat) (r : Int) (i : Nat) (cat : String) (cnt : Nat) :
    (mkTrendRecord df catCol maxCount r i cat cnt).currentPopularity =
      popularity cnt maxCount := rfl

/-- Field values of one constructed record (predicted change). -/
theorem mkTrendRecord_change (df : DataFrame) (catCol : String) (maxCount : Nat)
    (r : Int) (i : Nat) (cat : String) (cnt : Nat) :
    (mkTrendRecord df catCol maxCount r i cat cnt).predictedPopularityChange =
      formatChange r := rfl

/-- Field values of one constructed record (keywords). -/
theorem mkTrendRecord_keywords (df : DataFrame) (catCol : String) (maxCount : Nat)
    (r : Int) (i : Nat) (cat : String) (cnt : Nat) :
    (mkTrendRecord df catCol maxCount r i cat cnt).keywords =
      keywordsFor df.cols (groupRows df catCol cat) cat := rfl

/-- Field values of one constructed record (image URL). -/
theorem mkTrendRecord_imageUrl (df : DataFrame) (catCol : String) (maxCount : Nat)
    (r : Int) (i : Nat) (cat : String) (cnt : Nat) :
    (mkTrendRecord df catCol maxCount r i cat cnt).imageUrl =
      imageUrlFor df.cols (groupRows df catCol cat) cat := rfl

/-- Field values of one constructed record (description). -/
theorem mkTrendRecord_description (df : DataFrame) (catCol : String) (maxCount : Nat)
    (r : Int) (i : Nat) (cat : String) (cnt : Nat) :
    (mkTrendRecord df catCol maxCount r i cat cnt).description =
      descriptionFor df.cols (groupRows df catCol cat) cat := rfl

/-- The loop yields one record per category. -/
theorem buildRecords_length (df : DataFrame) (catCol : String) (maxCount : Nat)
    (rand : Nat → Int) :
    ∀ (i : Nat) (l : List (String × Nat)),
      (buildRecords df catCol maxCount rand i l).length = l.length := by
  intro i l
  induction l generalizing i with
  | nil => rfl
  | cons p rest ih =>
    obtain ⟨cat, cnt⟩ := p
    rw [buildRecords]
    simp [ih (i + 1)]

/-- The ids of the loop's records are consecutive from `i + 1`. -/
theorem buildRecords_map_id (df : DataFrame) (catCol : String) (maxCount : Nat)
    (rand : Nat → Int) :
    ∀ (i : Nat) (l : List (String × Nat)),
      (buildRecords df catCol maxCount rand i l).map (fun r => r.id) =
        List.range' (i + 1) l.length := by
  intro i l
  induction l generalizing i with
  | nil => rfl
  | cons p rest ih =>
    obtain ⟨cat, cnt⟩ := p
    rw [buildRecords]
    simp only [List.map_cons, mkTrendRecord_id, ih (i + 1), List.length_cons,
      List.range'_succ]

/-- The categories of the loop's records are the grouped values in order. -/
theorem buildRecords_map_category (df : DataFrame) (catCol : String)
    (maxCount : Nat) (rand : Nat → Int) :
    ∀ (i : Nat) (l : List (String × Nat)),
      (buildRecords df catCol maxCount rand i l).map (fun r => r.category) =
        l.map Prod.fst := by
  intro i l
  induction l generalizing i with
  | nil => rfl
  | cons p rest ih =>
    obtain ⟨cat, cnt⟩ := p
    rw [buildRecords]
    simp only [List.map_cons, mkTrendRecord_category, ih (i + 1)]

/-- Bounded draws format to the signed pattern with unsigned value ≤ 25. -/
theorem formatChange_pattern (n : Int) (h1 : -10 ≤ n) (h2 : n ≤ 25) :
    signedIntPattern (formatChange n) = true ∧
      unsignedValue (formatChange n) ≤ 25 := by
  interval_cases n <;> decide

/-- The formatted change starts with '+' exactly for non-negative draws. -/
theorem formatChange_plus_iff (n : Int) :
    (formatChange n).data.head? = some '+' ↔ 0 ≤ n := by
  unfold formatChange
  split
  · next h => simp [h]
  · next h =>
    cases n with
    | ofNat m => exact absurd (Int.ofNat_nonneg m) h
    | negSucc m =>
      show (("-" ++ Nat.repr (m + 1)).data.head? = some '+') ↔ _
      rw [String.data_append]
      constructor
      · intro hh
        simp at hh
      · intro hh
        exact absurd hh h

/-- The keywords of any group satisfy the length, distinctness and
lowercase invariants. -/
theorem keywordsFor_invariant (cols : List String) (rows : List Row)
    (cat : String) :
    (keywordsFor cols rows cat).length ≤ 5 ∧ (keywordsFor cols rows cat).Nodup ∧
      ∀ k ∈ keywordsFor cols rows cat, strLower k := by
  unfold keywordsFor
  cases sampleText cols rows with
  | some t =>
    refine ⟨?_, ?_, ?_⟩
    · unfold keywordsFromText
      rw [List.length_take]
      exact min_le_left _ _
    · exact List.Nodup.sublist (List.take_sublist _ _) (List.nodup_dedup _)
    · intro k hk
      have hk2 : k ∈ (((pySplit t).filter (fun w => 3 < w.length)).map pyLower).dedup :=
        (List.take_sublist _ _).subset hk
      obtain ⟨w, _, rfl⟩ := List.mem_map.mp (List.mem_dedup.mp hk2)
      exact strLower_pyLower w
  | none =>
    refine ⟨by simp, List.nodup_singleton _, ?_⟩
    intro k hk
    rw [List.mem_singleton] at hk
    subst hk
    exact strLower_pyReplaceSpace _ (by decide) _ (strLower_pyLower cat)

/-- C1: on every execution path of `load_and_process_data` (successful
processing, missing file, parse failure, missing or empty category column)
every returned record has `currentPopularity` in the interval [30, 95]. -/
theorem c1_currentPopularity_in_range (fe : Bool) (p : Option DataFrame)
    (rand : Nat → Int) (r : TrendRecord)
    (h : r ∈ load_and_process_data fe p rand) :
    30 ≤ r.currentPopularity ∧ r.currentPopularity ≤ 95 := by
  rcases mem_load_cases h with h | h | h | ⟨df, catCol, _, _, _, _, h⟩
  · simp only [fallbackMissingFile, List.mem_cons, List.mem_singleton,
      List.not_mem_nil, or_false] at h
    rcases h with rfl | rfl <;> decide
  · simp only [fallbackProcessingError, List.mem_singleton] at h
    subst h; decide
  · simp only [fallbackDataIssue, List.mem_singleton] at h
    subst h; decide
  · obtain ⟨j, cat, cnt, _, rfl⟩ := mem_processGroups h
    exact popularity_range cnt _

/-- Witness for C1: the first missing-file fallback record. -/
theorem c1_witness :
    30 ≤ fbOversized.currentPopularity ∧ fbOversized.currentPopularity ≤ 95 :=
  c1_currentPopularity_in_range false none (fun _ => 0) fbOversized (by decide)

/-- C2 counterexample: with group sizes 2 and 3 (max 3), the record for
category `A` has currentPopularity 66 — `int((2/3)*100)` truncates the float64
product 66.66666666666666 — while the claimed formula round((2/3)*100) = 67
(clamping changes neither).  The claim is therefore false on this input. -/
theorem c2_counterexample :
    (load_and_process_data true (some dfCounts) (fun _ => 0)).map
        (fun r => (r.category, r.currentPopularity)) = [("B", 95), ("A", 66)] ∧
    min (max (roundNearest (2 * 100) 3) 30) 95 = 67 := by
  constructor <;> decide

/-- The program's float64 truncation diverges from the exact rational floor
inside the clamp range: for counts 57 and 100 the program computes 56 (the
float64 product (57/100)*100 is 56.99999999999999) while the exact floor of
(57/100)*100 is 57.  This is why the amended C2 is stated against the
float64 model `pyPopularityRaw` rather than against Nat division. -/
theorem pyPopularityRaw_floor_divergence :
    pyPopularityRaw 57 100 = 56 ∧ (57 * 100) / 100 = 57 := by
  constructor <;> decide

/-- C2 amended: on the successful path, each record's currentPopularity equals
`int((group_count / max_group_count) * 100)` evaluated in IEEE-754 float64
arithmetic (both int64 counts converted to float64, one rounded division, one
rounded multiplication by 100, truncation toward zero — `pyPopularityRaw`),
subsequently clamped to [30, 95].  This is neither round-to-nearest (66 vs 67
at counts 2 and 3) nor the exact floor (56 vs 57 at counts 57 and 100). -/
theorem c2_amended_float_popularity (df : DataFrame) (catCol : String)
    (rand : Nat → Int) (r : TrendRecord)
    (hmem : r ∈ load_and_process_data true (some df) rand)
    (hcat : findCategoryCol df.cols = some catCol)
    (hne : (df.col catCol).isEmpty = false) :
    r.currentPopularity =
      min (max (pyPopularityRaw ((dropna (df.col catCol)).count r.category)
        (((valueCounts (df.col catCol)).map Prod.snd).foldr Nat.max 0)) 30) 95 := by
  rw [load_success df catCol rand hcat hne] at hmem
  obtain ⟨j, cat, cnt, hvc, rfl⟩ := mem_processGroups hmem
  rw [mkTrendRecord_currentPopularity, mkTrendRecord_category,
    ← mem_valueCounts hvc]
  rfl

/-- Witness for the amended C2 on a concrete one-group table. -/
theorem c2_amended_witness :
    recA.currentPopularity =
      min (max (pyPopularityRaw ((dropna (dfA.col "Category")).count recA.category)
        (((valueCounts (dfA.col "Category")).map Prod.snd).foldr Nat.max 0)) 30) 95 :=
  c2_amended_float_popularity dfA "Category" (fun _ => 0) recA
    (by decide) (by decide) (by decide)

/-- C4: when the dataset file does not exist, `load_and_process_data` returns
exactly the hard-coded 2-element fallback list, and the trends endpoint serves
exactly that list. -/
theorem c4_missing_file_fallback (p : Option DataFrame) (rand : Nat → Int) :
    load_and_process_data false p rand =
      [{ id := 1, trendName := "Fallback: Oversized Blazers",
         category := "Outerwear", currentPopularity := 85,
         predictedPopularityChange := "+10",
         keywords := ["blazer", "oversized", "formal", "casual", "chic"],
         imageUrl := "https://placehold.co/300x200/F0F0F0/333333?text=Fallback+Data",
         description := "Using fallback data. Please ensure Kaggle dataset is downloaded." },
       { id := 2, trendName := "Fallback: Cargo Pants",
         category := "Bottoms", currentPopularity := 78,
         predictedPopularityChange := "+15",
         keywords := ["cargo", "pants", "utility", "streetwear", "comfort"],
         imageUrl := "https://placehold.co/300x200/F0F0F0/333333?text=Fallback+Data",
         description := "Using fallback data. Please ensure Kaggle dataset is downloaded." }] ∧
    get_trends false p rand = load_and_process_data false p rand :=
  ⟨rfl, rfl⟩

/-- C5 counterexample: a table whose selected category column exists and has a
row (so the pandas Series is not `.empty`) but whose cells are all null yields
the empty list, not the Data Issue fallback; the claim's "contains no usable
values" reading is false on this input. -/
theorem c5_counterexample :
    load_and_process_data true (some dfAllNull) (fun _ => 0) = [] ∧
    fallbackDataIssue ≠ ([] : List TrendRecord) := by
  constructor <;> decide

/-- C5 amended: the Data Issue fallback is returned exactly when no recognized
category column is present or the parsed table has zero rows (pandas
`Series.empty`); when a category column is selected and the table has rows but
every cell of that column is null, the empty list is returned instead. -/
theorem c5_amended_data_issue (df : DataFrame) (rand : Nat → Int) :
    (findCategoryCol df.cols = none ∨ df.rows.isEmpty = true →
      load_and_process_data true (some df) rand = fallbackDataIssue) ∧
    (∀ catCol, findCategoryCol df.cols = some catCol →
      df.rows.isEmpty = false → dropna (df.col catCol) = [] →
      load_and_process_data true (some df) rand = []) := by
  constructor
  · intro h
    rcases h with hnone | hemp
    · exact load_no_column df rand hnone
    · cases hcat : findCategoryCol df.cols with
      | none => exact load_no_column df rand hcat
      | some catCol =>
        have e : load_and_process_data true (some df) rand =
            (match findCategoryCol df.cols with
             | none => fallbackDataIssue
             | some c =>
               if (df.col c).isEmpty then fallbackDataIssue
               else processGroups df c rand) := rfl
        rw [e, hcat]
        have hcol : (df.col catCol).isEmpty = true := by
          rw [List.isEmpty_iff] at hemp ⊢
          simp [DataFrame.col, hemp]
        simp [hcol]
  · intro catCol hcat hrows hdrop
    have hne : (df.col catCol).isEmpty = false := by
      rw [List.isEmpty_eq_false] at hrows ⊢
      simp [DataFrame.col, hrows]
    rw [load_success df catCol rand hcat hne]
    unfold processGroups valueCounts
    rw [hdrop]
    rfl

/-- Witness for the amended C5 at concrete tables for both branches. -/
theorem c5_amended_witness :
    load_and_process_data true (some dfNoCat) (fun _ => 0) = fallbackDataIssue ∧
    load_and_process_data true (some dfAllNull) (fun _ => 0) = [] :=
  ⟨(c5_amended_data_issue dfNoCat (fun _ => 0)).1 (Or.inl (by decide)),
   (c5_amended_data_issue dfAllNull (fun _ => 0)).2 "Category"
     (by decide) (by decide) (by decide)⟩

/-- C10: the first entry of the fixed category-column priority list is the
string "Type " with a trailing space, and a parsed table whose columns include
"Type" (no trailing space) but none of the six priority names selects no
category column, so the Data Issue fallback is returned. -/
theorem c10_type_trailing_space (df : DataFrame) (rand : Nat → Int)
    (_hType : df.cols.contains "Type" = true)
    (h2 : ∀ c ∈ categoryPriority, df.cols.contains c = false) :
    categoryPriority.head? = some "Type " ∧
    load_and_process_data true (some df) rand = fallbackDataIssue := by
  refine ⟨rfl, ?_⟩
  have hnone : findCategoryCol df.cols = none := by
    unfold findCategoryCol
    rw [List.find?_eq_none]
    intro c hc
    simpa using h2 c hc
  exact load_no_column df rand hnone

/-- Witness for C10 at the concrete table whose only column is "Type". -/
theorem c10_witness :
    categoryPriority.head? = some "Type " ∧
    load_and_process_data true (some dfTypeNoSpace) (fun _ => 0) = fallbackDataIssue :=
  c10_type_trailing_space dfTypeNoSpace (fun _ => 0) (by decide) (by decide)

/-- C3: every served `predictedPopularityChange` matches `^[+-][0-9]+$` with
unsigned value at most 25 (given the `randint(-10, 25)` range guarantee on the
draws); a formatted draw carries a leading '+' exactly when the draw is
non-negative; and on the successful path the field is the formatted value of
one of the draws. -/
theorem c3_predicted_change (fe : Bool) (p : Option DataFrame) (rand : Nat → Int)
    (hr : ∀ i, -10 ≤ rand i ∧ rand i ≤ 25) (r : TrendRecord)
    (hmem : r ∈ get_trends fe p rand) :
    (signedIntPattern r.predictedPopularityChange = true ∧
      unsignedValue r.predictedPopularityChange ≤ 25) ∧
    (∀ n : Int, ((formatChange n).data.head? = some '+' ↔ 0 ≤ n)) ∧
    (∀ df catCol, fe = true → p = some df →
      findCategoryCol df.cols = some catCol → (df.col catCol).isEmpty = false →
      ∃ j, r.predictedPopularityChange = formatChange (rand j)) := by
  refine ⟨?_, fun n => formatChange_plus_iff n, ?_⟩
  · rcases mem_load_cases hmem with h | h | h | ⟨df, catCol, _, _, _, _, h⟩
    · simp only [fallbackMissingFile, List.mem_cons, List.mem_singleton,
        List.not_mem_nil, or_false] at h
      rcases h with rfl | rfl <;> decide
    · simp only [fallbackProcessingError, List.mem_singleton] at h
      subst h; decide
    · simp only [fallbackDataIssue, List.mem_singleton] at h
      subst h; decide
    · obtain ⟨j, cat, cnt, _, rfl⟩ := mem_processGroups h
      rw [mkTrendRecord_change]
      exact formatChange_pattern (rand j) (hr j).1 (hr j).2
  · intro df catCol hfe hp hcat hne
    subst hfe hp
    unfold get_trends at hmem
    rw [load_success df catCol rand hcat hne] at hmem
    obtain ⟨j, cat, cnt, _, rfl⟩ := mem_processGroups hmem
    exact ⟨j, mkTrendRecord_change df catCol _ (rand j) j cat cnt⟩

/-- Witness for C3 at the missing-file path with the constant draw 0. -/
theorem c3_witness :
    (signedIntPattern fbOversized.predictedPopularityChange = true ∧
      unsignedValue fbOversized.predictedPopularityChange ≤ 25) ∧
    (∀ n : Int, ((formatChange n).data.head? = some '+' ↔ 0 ≤ n)) ∧
    (∀ (df : DataFrame) (catCol : String), false = true →
      (none : Option DataFrame) = some df →
      findCategoryCol df.cols = some catCol → (df.col catCol).isEmpty = false →
      ∃ j : Nat, fbOversized.predictedPopularityChange =
        formatChange ((fun _ : Nat => (0 : Int)) j)) :=
  c3_predicted_change false none (fun _ => 0)
    (fun _ => ⟨by norm_num, by norm_num⟩) fbOversized (by decide)

/-- Provenance of each keyword computed from a sample text. -/
theorem keywordsFromText_mem (t : String) (k : String)
    (hk : k ∈ keywordsFromText t) :
    ∃ w, w ∈ pySplit t ∧ 3 < w.length ∧ k = pyLower w := by
  unfold keywordsFromText at hk
  have hk2 := (List.take_sublist _ _).subset hk
  obtain ⟨w, hw, rfl⟩ := List.mem_map.mp (List.mem_dedup.mp hk2)
  rw [List.mem_filter] at hw
  exact ⟨w, hw.1, by simpa using hw.2, rfl⟩

/-- C6 counterexample: a group whose only description cell is the empty string
has no non-empty text value available, yet its keywords list is `[]` rather
than the category-name fallback keyword the claim requires in that case. -/
theorem c6_counterexample :
    (load_and_process_data true (some dfEmptyDesc) (fun _ => 0)).map
        (fun r => (r.category, r.keywords)) = [("A", [])] ∧
    ([] : List String) ≠ [pyReplaceSpace '-' (pyLower "A")] := by
  constructor <;> decide

/-- C6 amended: every served record's keywords list has at most 5 entries,
pairwise distinct and lowercase; on the successful path each keyword is the
lowercasing of a word longer than 3 characters of the first non-NULL (rather
than non-empty) description-or-title value of its group, and when no text
column has a non-null value the list is exactly the category name lowercased
with spaces replaced by hyphens. -/
theorem c6_amended_keywords (fe : Bool) (p : Option DataFrame) (rand : Nat → Int)
    (r : TrendRecord) (hmem : r ∈ get_trends fe p rand) :
    (r.keywords.length ≤ 5 ∧ r.keywords.Nodup ∧ ∀ k ∈ r.keywords, strLower k) ∧
    (∀ df catCol, fe = true → p = some df →
      findCategoryCol df.cols = some catCol → (df.col catCol).isEmpty = false →
      ((∃ t, sampleText df.cols (groupRows df catCol r.category) = some t ∧
          ∀ k ∈ r.keywords, ∃ w, w ∈ pySplit t ∧ 3 < w.length ∧ k = pyLower w) ∨
        (sampleText df.cols (groupRows df catCol r.category) = none ∧
          r.keywords = [pyReplaceSpace '-' (pyLower r.category)]))) := by
  constructor
  · rcases mem_load_cases hmem with h | h | h | ⟨df, catCol, _, _, _, _, h⟩
    · simp only [fallbackMissingFile, List.mem_cons, List.mem_singleton,
        List.not_mem_nil, or_false] at h
      rcases h with rfl | rfl <;> exact ⟨by decide, by decide, by decide⟩
    · simp only [fallbackProcessingError, List.mem_singleton] at h
      subst h; exact ⟨by decide, by decide, by decide⟩
    · simp only [fallbackDataIssue, List.mem_singleton] at h
      subst h; exact ⟨by decide, by decide, by decide⟩
    · obtain ⟨j, cat, cnt, _, rfl⟩ := mem_processGroups h
      rw [mkTrendRecord_keywords]
      exact keywordsFor_invariant _ _ _
  · intro df catCol hfe hp hcat hne
    subst hfe hp
    unfold get_trends at hmem
    rw [load_success df catCol rand hcat hne] at hmem
    obtain ⟨j, cat, cnt, _, rfl⟩ := mem_processGroups hmem
    simp only [mkTrendRecord_category, mkTrendRecord_keywords]
    unfold keywordsFor
    cases hst : sampleText df.cols (groupRows df catCol cat) with
    | some t =>
      exact Or.inl ⟨t, rfl, fun k hk => keywordsFromText_mem t k hk⟩
    | none =>
      exact Or.inr ⟨rfl, rfl⟩

/-- Witness for the amended C6 at a concrete successful-path record. -/
theorem c6_witness :
    (recA.keywords.length ≤ 5 ∧ recA.keywords.Nodup ∧
      ∀ k ∈ recA.keywords, strLower k) ∧
    (∀ df catCol, true = true → (some dfA : Option DataFrame) = some df →
      findCategoryCol df.cols = some catCol → (df.col catCol).isEmpty = false →
      ((∃ t, sampleText df.cols (groupRows df catCol recA.category) = some t ∧
          ∀ k ∈ recA.keywords, ∃ w, w ∈ pySplit t ∧ 3 < w.length ∧ k = pyLower w) ∨
        (sampleText df.cols (groupRows df catCol recA.category) = none ∧
          recA.keywords = [pyReplaceSpace '-' (pyLower recA.category)]))) :=
  c6_amended_keywords true (some dfA) (fun _ => 0) recA (by decide)

/-- C7 counterexample: the group's image-URL column contains a well-formed
http URL, but because the first non-null value is not http-prefixed the
record's imageUrl is the placeholder, contradicting the claim that the first
well-formed URL found among the group's values is used. -/
theorem c7_counterexample :
    (load_and_process_data true (some dfImg) (fun _ => 0)).map
        (fun r => r.imageUrl) = [placeholderUrl "A"] ∧
    startsWithHttp "http://y" = true ∧
    some "http://y" ∈ dfImg.col "image_url" ∧
    placeholderUrl "A" ≠ "http://y" := by
  refine ⟨by decide, by decide, by decide, by decide⟩

/-- C7 amended: only the first non-null image_url value of the group is
consulted — it is used when it starts with "http", and otherwise (including
when a later value of the group is a well-formed URL) the generated
placeholder URL is used; the placeholder is also used when the column is
absent or all-null. -/
theorem c7_amended_imageUrl (df : DataFrame) (catCol : String) (rand : Nat → Int)
    (r : TrendRecord)
    (hmem : r ∈ load_and_process_data true (some df) rand)
    (hcat : findCategoryCol df.cols = some catCol)
    (hne : (df.col catCol).isEmpty = false) :
    (∀ u, df.cols.contains "image_url" = true →
      firstNonNull (groupRows df catCol r.category) "image_url" = some u →
      r.imageUrl = if startsWithHttp u then u else placeholderUrl r.category) ∧
    ((df.cols.contains "image_url" = false ∨
      firstNonNull (groupRows df catCol r.category) "image_url" = none) →
      r.imageUrl = placeholderUrl r.category) := by
  rw [load_success df catCol rand hcat hne] at hmem
  obtain ⟨j, cat, cnt, _, rfl⟩ := mem_processGroups hmem
  simp only [mkTrendRecord_category, mkTrendRecord_imageUrl]
  constructor
  · intro u hcols hfirst
    have husable : colUsable df.cols (groupRows df catCol cat) "image_url" = true := by
      unfold colUsable
      rw [hcols, Bool.true_and]
      unfold firstNonNull at hfirst
      cases hd : dropna ((groupRows df catCol cat).map (fun row => row "image_url")) with
      | nil => rw [hd] at hfirst; simp at hfirst
      | cons a l => rfl
    simp only [imageUrlFor, husable, if_true, hfirst]
  · intro h
    rcases h with hcols | hfirst
    · have husable : colUsable df.cols (groupRows df catCol cat) "image_url" = false := by
        unfold colUsable
        rw [hcols, Bool.false_and]
      simp [imageUrlFor, husable]
    · cases hcu : colUsable df.cols (groupRows df catCol cat) "image_url" <;>
        simp [imageUrlFor, hcu, hfirst]

/-- Witness for the amended C7 at the concrete two-row image table. -/
theorem c7_witness :
    recImg.imageUrl =
      if startsWithHttp "ftp://x" then "ftp://x" else placeholderUrl recImg.category :=
  (c7_amended_imageUrl dfImg "Category" (fun _ => 0) recImg (by decide)
     (by decide) (by decide)).1 "ftp://x" (by decide) (by decide)

/-- C8 counterexample: the record built from a 4-character description has
description "Nice..." — the source appends "..." — whereas the claim says the
description equals the first 150 characters, i.e. "Nice". -/
theorem c8_counterexample :
    (load_and_process_data true (some dfShortDesc) (fun _ => 0)).map
        (fun r => r.description) = ["Nice..."] ∧
    "Nice..." ≠ pyTake 150 "Nice" := by
  constructor <;> decide

/-- C8 amended: on the successful path, a record's description is the first
150 characters of the first non-null description-or-title value of its group
with "..." appended (hence at most 153 characters), or the generated sentence
naming the category when no text value exists. -/
theorem c8_amended_description (df : DataFrame) (catCol : String)
    (rand : Nat → Int) (r : TrendRecord)
    (hmem : r ∈ load_and_process_data true (some df) rand)
    (hcat : findCategoryCol df.cols = some catCol)
    (hne : (df.col catCol).isEmpty = false) :
    (∀ t, sampleText df.cols (groupRows df catCol r.category) = some t →
      r.description = pyTake 150 t ++ "..." ∧ r.description.length ≤ 153) ∧
    (sampleText df.cols (groupRows df catCol r.category) = none →
      r.description = genericDescription r.category) := by
  rw [load_success df catCol rand hcat hne] at hmem
  obtain ⟨j, cat, cnt, _, rfl⟩ := mem_processGroups hmem
  simp only [mkTrendRecord_category, mkTrendRecord_description]
  constructor
  · intro t ht
    constructor
    · simp [descriptionFor, ht]
    · simp only [descriptionFor, ht]
      rw [String.length_append]
      have h150 : (pyTake 150 t).length ≤ 150 := by
        show (t.data.take 150).length ≤ 150
        rw [List.length_take]
        exact min_le_left _ _
      have h3 : ("..." : String).length = 3 := rfl
      omega
  · intro ht
    simp [descriptionFor, ht]

/-- Witness for the amended C8 at the concrete short-description table. -/
theorem c8_witness :
    recShortDesc.description = pyTake 150 "Nice" ++ "..." ∧
    recShortDesc.description.length ≤ 153 :=
  (c8_amended_description dfShortDesc "Category" (fun _ => 0) recShortDesc
     (by decide) (by decide) (by decide)).1 "Nice" (by decide)

/-- C9: on the successful path the records appear in descending order of
their group's row count and their ids are the consecutive integers
1, 2, 3, ... in list order. -/
theorem c9_order_and_ids (df : DataFrame) (catCol : String) (rand : Nat → Int)
    (hcat : findCategoryCol df.cols = some catCol)
    (hne : (df.col catCol).isEmpty = false) :
    (load_and_process_data true (some df) rand).map (fun r => r.id) =
      List.range' 1 (load_and_process_data true (some df) rand).length ∧
    (load_and_process_data true (some df) rand).Pairwise
      (fun a b => (groupRows df catCol b.category).length ≤
        (groupRows df catCol a.category).length) := by
  rw [load_success df catCol rand hcat hne]
  unfold processGroups
  constructor
  · rw [buildRecords_map_id, buildRecords_length]
  · have hs : (valueCounts (df.col catCol)).Pairwise countGE := by
      unfold valueCounts
      exact List.sorted_insertionSort countGE _
    have hstep : (valueCounts (df.col catCol)).Pairwise
        (fun p q : String × Nat =>
          (groupRows df catCol q.1).length ≤ (groupRows df catCol p.1).length) := by
      refine List.Pairwise.imp_of_mem ?_ hs
      rintro ⟨a, b⟩ ⟨c, d⟩ hp hq hpq
      rw [groupRows_length, groupRows_length]
      rw [← mem_valueCounts hp, ← mem_valueCounts hq]
      exact hpq
    have h1 : ((buildRecords df catCol
          (((valueCounts (df.col catCol)).map Prod.snd).foldr Nat.max 0) rand 0
          (valueCounts (df.col catCol))).map (fun r => r.category)).Pairwise
        (fun x y => (groupRows df catCol y).length ≤ (groupRows df catCol x).length) := by
      rw [buildRecords_map_category]
      exact List.pairwise_map.mpr hstep
    exact List.pairwise_map.mp h1

/-- Witness for C9 at the concrete two-group table. -/
theorem c9_witness :
    (load_and_process_data true (some dfCounts) (fun _ => 0)).map (fun r => r.id) =
      List.range' 1 (load_and_process_data true (some dfCounts) (fun _ => 0)).length ∧
    (load_and_process_data true (some dfCounts) (fun _ => 0)).Pairwise
      (fun a b => (groupRows dfCounts "Category" b.category).length ≤
        (groupRows dfCounts "Category" a.category).length) :=
  c9_order_and_ids dfCounts "Category" (fun _ => 0) (by decide) (by decide)

end FashionApp
